import Mathlib

/-!
Shallow embedding of the garage-door communication engine of
homekit-ratgdo32 (src/src/comms.cpp), with the data model from
src/src/ratgdo.h.  Machine integers are modelled as Nat with explicit
masking where the source masks or wraps; the millisecond clock is
modelled as a monotone Nat.  Each protocol handler becomes a pure
function from its inputs (prior globals, received byte or frame fields)
to its updated state together with the list of notifications it emits.
-/

namespace Ratgdo

/-- DoorState enum used by both protocol engines (declared in the
secplus packet library; values as used throughout comms.cpp). -/
inductive DoorState
  | Unknown
  | Open
  | Closed
  | Stopped
  | Opening
  | Closing
deriving DecidableEq, Repr

/-- GarageDoorCurrentState from ratgdo.h (HomeKit CurrentDoorState values). -/
inductive GarageDoorCurrentState
  | CURR_OPEN
  | CURR_CLOSED
  | CURR_OPENING
  | CURR_CLOSING
  | CURR_STOPPED
deriving DecidableEq, Repr

/-- GarageDoorTargetState from ratgdo.h (HomeKit TargetDoorState values). -/
inductive GarageDoorTargetState
  | TGT_OPEN
  | TGT_CLOSED
deriving DecidableEq, Repr

/-- LockCurrentState from ratgdo.h. -/
inductive LockCurrentState
  | CURR_UNLOCKED
  | CURR_LOCKED
  | CURR_JAMMED
  | CURR_UNKNOWN
deriving DecidableEq, Repr

/-- LockTargetState from ratgdo.h. -/
inductive LockTargetState
  | TGT_UNLOCKED
  | TGT_LOCKED
deriving DecidableEq, Repr

open GarageDoorCurrentState GarageDoorTargetState LockCurrentState LockTargetState

/-- The GarageDoor struct from ratgdo.h: the canonical door model shared
with the notifiers.  motion_timer is a millisecond deadline. -/
structure GarageDoor where
  active : Bool
  current_state : GarageDoorCurrentState
  target_state : GarageDoorTargetState
  obstructed : Bool
  has_motion_sensor : Bool
  motion_timer : Nat
  motion : Bool
  light : Bool
  current_lock : LockCurrentState
  target_lock : LockTargetState
deriving DecidableEq, Repr

/-- The zero-initialized global `GarageDoor garage_door;` from ratgdo.cpp
(all enum fields take the value-0 member of their HomeKit enum). -/
def initGarageDoor : GarageDoor :=
  { active := false
    current_state := CURR_OPEN
    target_state := TGT_OPEN
    obstructed := false
    has_motion_sensor := false
    motion_timer := 0
    motion := false
    light := false
    current_lock := CURR_UNLOCKED
    target_lock := TGT_UNLOCKED }

/-- A discrete state-change notification to the external notifiers
(the notify_homekit_* entry points declared in homekit.h). -/
inductive Notif
  | currentDoor
  | targetDoor
  | light
  | targetLock
  | currentLock
  | obstruction
  | motion
deriving DecidableEq, Repr

/-! ## Protocol-1 door-status byte decoding (comms_loop_sec1, case DoorStatus) -/

/-- The switch over the low 3 bits of a door-status byte in
comms_loop_sec1 (two encodings, 0x0 and 0x6, both map to Stopped;
undefined codes map to Unknown). -/
def decodeSec1Door (v : Nat) : DoorState :=
  match v with
  | 0x00 => DoorState.Stopped
  | 0x01 => DoorState.Opening
  | 0x02 => DoorState.Open
  | 0x04 => DoorState.Closing
  | 0x05 => DoorState.Closed
  | 0x06 => DoorState.Stopped
  | _ => DoorState.Unknown

/-- Upper-nibble allow-list for a protocol-1 door-status byte
(comms_loop_sec1 line 435: reject unless the upper nibble is 0x0, 0x5 or 0xB). -/
def sec1DoorByteValid (val : Nat) : Prop :=
  val &&& 0xF0 = 0x00 ∨ val &&& 0xF0 = 0x50 ∨ val &&& 0xF0 = 0xB0

instance (val : Nat) : Decidable (sec1DoorByteValid val) := by
  unfold sec1DoorByteValid; infer_instance

/-- The debounce-and-commit core of the DoorStatus case of
comms_loop_sec1 (lines 435-483): reject bytes whose upper nibble is not
on the allow-list; otherwise compare the low 3 bits against the static
prevDoor register (zero-initialized at boot) and only when they match
commit the decoded value to the doorState global. -/
def sec1DoorByteStep (prevDoor : Nat) (d : DoorState) (val : Nat) : Nat × DoorState :=
  if ¬ sec1DoorByteValid val then
    (prevDoor, d)
  else
    let v := val &&& 0x7
    if prevDoor ≠ v then
      (v, d)
    else
      (prevDoor, decodeSec1Door v)

/-- Fold a list of received door-status bytes through sec1DoorByteStep,
starting from the boot state: prevDoor is a zero-initialized static and
setup_comms sets doorState to DoorState::Unknown. -/
def sec1DoorByteRun (bytes : List Nat) : Nat × DoorState :=
  bytes.foldl (fun s b => sec1DoorByteStep s.1 s.2 b) (0, DoorState.Unknown)

/-! ## Command queue retry discipline (comms_loop_sec2, transmit half) -/

/-- MAX_COMMS_RETRY from comms.cpp. -/
def MAX_COMMS_RETRY : Nat := 10

/-- DoorAction values from the packet library as used by comms.cpp. -/
inductive DoorAction
  | Close
  | Open
  | Toggle
  | Stop
deriving DecidableEq, Repr

/-- The symbolic content of a queued outbound action.  Modelled from the
spec: the Packet codec (Packet.h/secplus2.h) is not part of the sources,
and §3 PendingAction describes the queue entry as an encoded or symbolic
command; the queue and retry logic never inspect the payload. -/
inductive QueuedCmd
  | doorAction (action : DoorAction) (pressed : Bool)
  | getStatus
  | lightCmd (isOn : Bool) (pressed : Bool)
  | lockCmd (isOn : Bool) (pressed : Bool)
  | statusPoll (cmd : Nat)
deriving DecidableEq, Repr

/-- PacketAction from comms.cpp: a queued packet, its
increment-rolling-code flag and its minimum post-send delay (ms). -/
structure PacketAction where
  pkt : QueuedCmd
  inc_counter : Bool
  delay : Nat
deriving DecidableEq, Repr

/-- The transmit half of comms_loop_sec2 (lines 719-741): when a packet
is waiting it is popped from the queue and sent; on failure it is pushed
back onto the front of the queue and the retry counter incremented,
unless the counter has already reached MAX_COMMS_RETRY, in which case
the action is dropped and the counter reset.  `ok` is the result of
process_PacketAction.  Returns (queue, retryCount, dropped action). -/
def sec2TxStep (q : List PacketAction) (retry : Nat) (ok : Bool) :
    List PacketAction × Nat × Option PacketAction :=
  match q with
  | [] => ([], retry, none)
  | a :: rest =>
    if ok then
      (rest, retry, none)
    else if retry < MAX_COMMS_RETRY then
      (a :: rest, retry + 1, none)
    else
      (rest, 0, some a)

/-! ## Protocol-2 status frame processing (comms_loop_sec2, case Status) -/

/-- Result of processing one protocol-2 Status frame: the updated door
model, the (possibly cancelled) TTC countdown, the notifications
emitted in order, and the status_done flag. -/
structure Sec2StatusResult where
  door : GarageDoor
  ttc : Nat
  notifs : List Notif
  status_done : Bool
deriving DecidableEq, Repr

/-- The PacketCommand::Status case of comms_loop_sec2 (lines 754-847).
Inputs are the prior door model, the current TTC countdown, and the
frame payload fields (door state, light bit, lock bit).  Faithful to the
source sequencing: locals current_state/target_state are derived from
the payload door field (Unknown leaves them at the prior values); a
transition into CURR_CLOSING with an active countdown cancels it; the
first-ever status sets active and back-fills target_state from
current_state; the door notification pair fires when either local
differs from the stored field; light and lock changes fire their own
notifications. -/
def sec2Status (g : GarageDoor) (ttc : Nat) (door : DoorState)
    (lightP : Bool) (lockP : Bool) : Sec2StatusResult :=
  let cs : GarageDoorCurrentState :=
    match door with
    | DoorState.Open => CURR_OPEN
    | DoorState.Closed => CURR_CLOSED
    | DoorState.Stopped => CURR_STOPPED
    | DoorState.Opening => CURR_OPENING
    | DoorState.Closing => CURR_CLOSING
    | DoorState.Unknown => g.current_state
  let ts0 : GarageDoorTargetState :=
    match door with
    | DoorState.Open => TGT_OPEN
    | DoorState.Closed => TGT_CLOSED
    | DoorState.Stopped => TGT_OPEN
    | DoorState.Opening => TGT_OPEN
    | DoorState.Closing => TGT_CLOSED
    | DoorState.Unknown => g.target_state
  let ttc1 : Nat := if cs = CURR_CLOSING ∧ 0 < ttc then 0 else ttc
  let ts : GarageDoorTargetState :=
    if g.active then ts0
    else if cs = CURR_OPENING ∨ cs = CURR_OPEN then TGT_OPEN else TGT_CLOSED
  let g1 : GarageDoor := { g with active := true }
  let (g2, doorNotifs) :=
    if ts ≠ g1.target_state ∨ cs ≠ g1.current_state then
      ({ g1 with target_state := ts, current_state := cs },
        [Notif.currentDoor, Notif.targetDoor])
    else (g1, ([] : List Notif))
  let (g3, lightNotifs) :=
    if lightP ≠ g2.light then
      ({ g2 with light := lightP }, [Notif.light])
    else (g2, ([] : List Notif))
  let cl : LockCurrentState := if lockP then CURR_LOCKED else CURR_UNLOCKED
  let tl : LockTargetState := if lockP then TGT_LOCKED else TGT_UNLOCKED
  let (g4, lockNotifs) :=
    if cl ≠ g3.current_lock then
      ({ g3 with target_lock := tl, current_lock := cl },
        [Notif.targetLock, Notif.currentLock])
    else (g3, ([] : List Notif))
  { door := g4
    ttc := ttc1
    notifs := doorNotifs ++ lightNotifs ++ lockNotifs
    status_done := true }

/-! ## Rolling-code counter lifecycle (setup_comms / comms_loop_sec2 / transmitSec2) -/

/-- MAX_CODES_WITHOUT_FLASH_WRITE from comms.cpp: the write-ahead batch size. -/
def MAX_CODES_WITHOUT_FLASH_WRITE : Nat := 10

/-- The rolling-code counter state: the in-memory rolling_code and the
value currently held in persistent storage (nvram_rolling; after every
save_rolling_code the shadow last_saved_code equals it). -/
structure RollingState where
  rolling : Nat
  saved : Nat
deriving DecidableEq, Repr

/-- save_rolling_code from comms.cpp: writes the in-memory counter to
flash and records it as last saved. -/
def save_rolling_code (s : RollingState) : RollingState :=
  { rolling := s.rolling, saved := s.rolling }

/-- The rolling-code part of setup_comms (comms.cpp lines 185-191):
read the persisted counter p; if nonzero bump it by the batch size so it
is ahead of anything the opener has seen; then immediately persist. -/
def setupRolling (p : Nat) : RollingState :=
  let rolling := if p ≠ 0 then p + MAX_CODES_WITHOUT_FLASH_WRITE else 0
  save_rolling_code { rolling := rolling, saved := p }

/-- The counter increment performed by a successful transmitSec2 of an
action with inc_counter set (line 1121): masked to 28 bits. -/
def transmitInc (s : RollingState) : RollingState :=
  { rolling := (s.rolling + 1) % 0x10000000, saved := s.saved }

/-- sync() from comms.cpp as it affects the counter: two packets are
sent directly with inc_counter set; each increments the counter only if
its transmit succeeded (no bus collision). -/
def syncCounter (s : RollingState) (ok1 ok2 : Bool) : RollingState :=
  let s1 := if ok1 then transmitInc s else s
  if ok2 then transmitInc s1 else s1

/-- One pass of comms_loop_sec2 as it affects the counter: at most one
queued packet is transmitted (incrementing the counter if flagged and
successful), and at the end of the loop the counter is persisted if it
has reached the write-ahead threshold (lines 981-985). -/
def sec2CounterLoop (s : RollingState) (didInc : Bool) : RollingState :=
  let s1 := if didInc then transmitInc s else s
  if s1.rolling ≥ s1.saved + MAX_CODES_WITHOUT_FLASH_WRITE then
    save_rolling_code s1
  else
    s1

/-- A full post-boot counter history: setup from persisted value p,
the two sync transmissions, then any sequence of service-loop passes. -/
def rollingRun (p : Nat) (ok1 ok2 : Bool) (loops : List Bool) : RollingState :=
  loops.foldl sec2CounterLoop (syncCounter (setupRolling p) ok1 ok2)

/-! ## Obstruction detector (obstruction_timer) -/

/-- obstruction_sensor_t from comms.cpp: the ISR-incremented low-pulse
count and the timestamp of the last observed asleep (line low) state. -/
structure ObstructionSensor where
  low_count : Nat
  last_asleep : Nat
deriving DecidableEq, Repr

/-- Result of one obstruction_timer call. -/
structure ObstructionResult where
  door : GarageDoor
  sensor : ObstructionSensor
  last_millis : Nat
  notifs : List Notif
deriving DecidableEq, Repr

/-- obstruction_timer from comms.cpp (lines 1609-1677).  Inputs: prior
door model and sensor state, the static last_millis, the current millis
(assumed monotone, so C unsigned subtraction agrees with Nat
subtraction), the sampled level of the obstruction input pin, and the
motionTriggers.bit.obstruction configuration bit.  Every elapsed 50 ms
window: more than PULSES_LOWER_LIMIT (3) pulses means awake and clear
(clearing an obstructed flag notifies); zero pulses with the line low
refreshes last_asleep; zero pulses with the line high marks an
obstruction only if last_asleep is more than 700 ms old; 1 to 3 pulses
change nothing.  The pulse count is reset at the end of each window. -/
def obstruction_timer (g : GarageDoor) (s : ObstructionSensor)
    (last_millis current_millis : Nat) (lineHigh : Bool)
    (trigObstruction : Bool) : ObstructionResult :=
  if current_millis - last_millis > 50 then
    if s.low_count > 3 then
      if g.obstructed then
        let g1 := { g with obstructed := false }
        let (g2, mn) :=
          if trigObstruction then
            ({ g1 with motion := false }, [Notif.motion])
          else (g1, ([] : List Notif))
        { door := g2
          sensor := { low_count := 0, last_asleep := s.last_asleep }
          last_millis := current_millis
          notifs := Notif.obstruction :: mn }
      else
        { door := g
          sensor := { low_count := 0, last_asleep := s.last_asleep }
          last_millis := current_millis
          notifs := [] }
    else if s.low_count = 0 then
      if ¬ lineHigh then
        { door := g
          sensor := { low_count := 0, last_asleep := current_millis }
          last_millis := current_millis
          notifs := [] }
      else if current_millis - s.last_asleep > 700 then
        if ¬ g.obstructed then
          let g1 := { g with obstructed := true }
          let (g2, mn) :=
            if trigObstruction then
              ({ g1 with motion := true }, [Notif.motion])
            else (g1, ([] : List Notif))
          { door := g2
            sensor := { low_count := 0, last_asleep := s.last_asleep }
            last_millis := current_millis
            notifs := Notif.obstruction :: mn }
        else
          { door := g
            sensor := { low_count := 0, last_asleep := s.last_asleep }
            last_millis := current_millis
            notifs := [] }
      else
        { door := g
          sensor := { low_count := 0, last_asleep := s.last_asleep }
          last_millis := current_millis
          notifs := [] }
    else
      { door := g
        sensor := { low_count := 0, last_asleep := s.last_asleep }
        last_millis := current_millis
        notifs := [] }
  else
    { door := g, sensor := s, last_millis := last_millis, notifs := [] }

/-! ## Time-to-close controller (TTCdelayLoop / close_door / open_door) -/

/-- The end actions installed in the TTC_Action function pointer:
door_command_close (normal close flow) or sync_and_restart
(manual-recovery flow). -/
inductive TTCAction
  | closeDoor
  | syncAndRestart
deriving DecidableEq, Repr

/-- A Ticker attach performed by close_door or manual_recovery: the
countdown seed stored in TTCcountdown, the tick period passed to
attach_ms, the remembered pre-delay light state (TTCwasLightOn) and the
installed end action. -/
structure TTCAttach where
  countdown : Nat
  period_ms : Nat
  wasLightOn : Bool
  action : TTCAction
deriving DecidableEq, Repr

/-- Result of one TTCdelayLoop tick: the decremented countdown, the
set_light request issued (none on the terminal tick), whether the end
action was invoked, and whether the timer detached itself. -/
structure TTCTickResult where
  countdown : Nat
  lightCmd : Option Bool
  fired : Bool
  detached : Bool
deriving DecidableEq, Repr

/-- TTCdelayLoop from comms.cpp (lines 1347-1368): pre-decrement the
uint8_t countdown (8-bit wraparound kept explicit); while it remains
positive request the light toggled to the opposite of its current
state; on reaching zero detach the timer and invoke the installed end
action instead. -/
def TTCdelayLoop (countdown : Nat) (light : Bool) : TTCTickResult :=
  let c := (countdown + 255) % 256
  if 0 < c then
    { countdown := c, lightCmd := some (!light), fired := false, detached := false }
  else
    { countdown := c, lightCmd := none, fired := true, detached := true }

/-- Run n TTC ticks from a given countdown and light state, threading
the requested light value as the next observed light state, and
counting end-action invocations.  Returns (countdown, light, fires). -/
def ttcTicks (cd : Nat) (light : Bool) : Nat → Nat × Bool × Nat
  | 0 => (cd, light, 0)
  | n + 1 =>
    let (c, l, f) := ttcTicks cd light n
    let r := TTCdelayLoop c l
    (r.countdown, r.lightCmd.getD l, f + if r.fired then 1 else 0)

/-! ## Command entry points (door_command / open_door / close_door / set_light) -/

/-- send_get_status from comms.cpp: enqueues a GetStatus packet, but
only when the configured protocol (doorControlType) is 2. -/
def sendGetStatusCmds (t : Nat) : List QueuedCmd :=
  if t = 2 then [QueuedCmd.getStatus] else []

/-- door_command from comms.cpp (lines 1261-1308), as the list of
packets it enqueues: for protocols 1 and 2 a press, a release (twice
for protocol 1, matching an observed wall panel), then a status
refresh; the dry-contact protocol (3) toggles a pin directly and
enqueues nothing. -/
def doorCommandCmds (t : Nat) (action : DoorAction) : List QueuedCmd :=
  if t ≠ 3 then
    [QueuedCmd.doorAction action true, QueuedCmd.doorAction action false] ++
      (if t = 1 then [QueuedCmd.doorAction action false] else []) ++
      sendGetStatusCmds t
  else []

/-- set_light from comms.cpp (lines 1506-1575), as the list of packets
it enqueues: protocol 1 is a toggle, so a request matching the current
light state is dropped, otherwise a press and two releases are queued;
protocol 2 queues one light packet and a status refresh. -/
def setLightCmds (t : Nat) (g : GarageDoor) (value : Bool) : List QueuedCmd :=
  if t = 1 then
    if value = true ∧ g.light = true then []
    else if value = false ∧ g.light = false then []
    else
      [QueuedCmd.lightCmd value true, QueuedCmd.lightCmd value false,
        QueuedCmd.lightCmd value false]
  else
    [QueuedCmd.lightCmd value true] ++ sendGetStatusCmds t

/-- Result of an open_door or close_door request: the TTCcountdown
global after the call, the Ticker attach performed (if any), and the
packets enqueued.  The door model itself is not mutated by either
entry point. -/
structure DoorRequestResult where
  ttc : Nat
  attach : Option TTCAttach
  cmds : List QueuedCmd
deriving DecidableEq, Repr

/-- open_door from comms.cpp (lines 1315-1345): a running TTC countdown
is cancelled and the light restored to its pre-delay state; a request
while already open is ignored; a request while closing issues a Stop
instead of an Open. -/
def open_door (t : Nat) (g : GarageDoor) (ttc : Nat) (ttcWasLightOn : Bool) :
    DoorRequestResult :=
  let (ttc1, cmds1) :=
    if 0 < ttc then (0, setLightCmds t g ttcWasLightOn)
    else (ttc, ([] : List QueuedCmd))
  if g.current_state = CURR_OPEN then
    { ttc := ttc1, attach := none, cmds := cmds1 }
  else if g.current_state = CURR_CLOSING then
    { ttc := ttc1, attach := none, cmds := cmds1 ++ doorCommandCmds t DoorAction.Stop }
  else
    { ttc := ttc1, attach := none, cmds := cmds1 ++ doorCommandCmds t DoorAction.Open }

/-- close_door from comms.cpp (lines 1370-1414): a request while
already closed is ignored; a request while opening issues a Stop; with
no configured delay a Close is issued immediately; a second close
request during a countdown cancels it and closes immediately; otherwise
the countdown is seeded with delay seconds times two, the pre-delay
light state remembered, door_command_close installed as the end action
and the 500 ms tick timer attached. -/
def close_door (t : Nat) (g : GarageDoor) (ttc : Nat) (ttcSeconds : Nat) :
    DoorRequestResult :=
  if g.current_state = CURR_CLOSED then
    { ttc := ttc, attach := none, cmds := [] }
  else if g.current_state = CURR_OPENING then
    { ttc := ttc, attach := none, cmds := doorCommandCmds t DoorAction.Stop }
  else if ttcSeconds = 0 then
    { ttc := ttc, attach := none, cmds := doorCommandCmds t DoorAction.Close }
  else if 0 < ttc then
    { ttc := 0, attach := none, cmds := doorCommandCmds t DoorAction.Close }
  else
    { ttc := ttcSeconds * 2
      attach := some { countdown := ttcSeconds * 2, period_ms := 500,
                       wasLightOn := g.light, action := TTCAction.closeDoor }
      cmds := [] }

/-! ## Manual-recovery counter (manual_recovery) -/

/-- ForceRecover struct from ratgdo.h. -/
structure ForceRecover where
  push_count : Nat
  timeout : Nat
deriving DecidableEq, Repr

/-- force_recover_delay from comms.cpp. -/
def force_recover_delay : Nat := 3

/-- Result of one manual_recovery call. -/
structure ManualRecoveryResult where
  fr : ForceRecover
  triggered : Bool
  attach : Option TTCAttach
deriving DecidableEq, Repr

/-- manual_recovery from comms.cpp (lines 1577-1604): the post-increment
of the uint8_t push counter is kept 8-bit; the first press of a fresh
sequence arms a 3 s timeout; a later press past the timeout resets the
counter to zero; reaching 5 requests soft-AP recovery mode and starts
the TTC controller with the short fixed recovery delay. -/
def manual_recovery (fr : ForceRecover) (light : Bool) (now : Nat) :
    ManualRecoveryResult :=
  let old := fr.push_count
  let fr1 : ForceRecover := { fr with push_count := (fr.push_count + 1) % 256 }
  let fr2 : ForceRecover :=
    if old = 0 then { fr1 with timeout := now + 3000 }
    else if now > fr1.timeout then { fr1 with push_count := 0 }
    else fr1
  if fr2.push_count ≥ 5 then
    { fr := fr2, triggered := true
      attach := some { countdown := force_recover_delay * 2, period_ms := 500,
                       wasLightOn := light, action := TTCAction.syncAndRestart } }
  else
    { fr := fr2, triggered := false, attach := none }

/-- Run a sequence of button presses (given their millis timestamps)
through manual_recovery, counting how many of them triggered the
recovery request. -/
def manualRecoveryRun (fr : ForceRecover) (light : Bool) (ts : List Nat) :
    ForceRecover × Nat :=
  ts.foldl
    (fun p t =>
      let r := manual_recovery p.1 light t
      (r.fr, p.2 + if r.triggered then 1 else 0))
    (fr, 0)

/-! ## Protocol-1 status message handlers (comms_loop_sec1, full paths) -/

/-- MOTION_TIMER_DURATION from ratgdo.h. -/
def MOTION_TIMER_DURATION : Nat := 5000

/-- The state surrounding protocol-1 door-status decoding: the static
prevDoor debounce register, the doorState global, and the two static
change-detection registers used for notifications.  At boot prevDoor
and the statics are zero-initialized (value-0 enum members) and
setup_comms sets doorState to Unknown. -/
structure Sec1DoorRegs where
  prevDoor : Nat
  doorState : DoorState
  gd_currentstate : GarageDoorCurrentState
  gd_TargetState : GarageDoorTargetState
deriving DecidableEq, Repr

/-- Boot values of Sec1DoorRegs. -/
def initSec1DoorRegs : Sec1DoorRegs :=
  { prevDoor := 0
    doorState := DoorState.Unknown
    gd_currentstate := CURR_OPEN
    gd_TargetState := TGT_OPEN }

/-- Result of processing one protocol-1 DoorStatus message. -/
structure Sec1DoorResult where
  regs : Sec1DoorRegs
  door : GarageDoor
  ttc : Nat
  notifs : List Notif
deriving DecidableEq, Repr

/-- The DoorStatus case of comms_loop_sec1 (lines 428-572): nibble
allow-list, two-sample debounce against prevDoor, decode into the
doorState global, map into the door model's current/target pair
(Unknown leaves the model untouched), cancel a running TTC countdown on
a transition into closing, activate the model on the first commit
(back-filling target from current), then edge-triggered notifications
against the static gd_currentstate and gd_TargetState registers. -/
def sec1DoorStatusMsg (st : Sec1DoorRegs) (g : GarageDoor) (ttc : Nat)
    (val : Nat) : Sec1DoorResult :=
  if ¬ sec1DoorByteValid val then
    { regs := st, door := g, ttc := ttc, notifs := [] }
  else
    let v := val &&& 0x7
    if st.prevDoor ≠ v then
      { regs := { st with prevDoor := v }, door := g, ttc := ttc, notifs := [] }
    else
      let ds := decodeSec1Door v
      let st1 := { st with doorState := ds }
      let g1 : GarageDoor :=
        match ds with
        | DoorState.Open => { g with current_state := CURR_OPEN, target_state := TGT_OPEN }
        | DoorState.Closed => { g with current_state := CURR_CLOSED, target_state := TGT_CLOSED }
        | DoorState.Stopped => { g with current_state := CURR_STOPPED, target_state := TGT_OPEN }
        | DoorState.Opening => { g with current_state := CURR_OPENING, target_state := TGT_OPEN }
        | DoorState.Closing => { g with current_state := CURR_CLOSING, target_state := TGT_CLOSED }
        | DoorState.Unknown => g
      let ttc1 := if g1.current_state = CURR_CLOSING ∧ 0 < ttc then 0 else ttc
      let g2 : GarageDoor :=
        if ¬ g1.active then
          { g1 with
            active := true,
            target_state :=
              if g1.current_state = CURR_OPENING ∨ g1.current_state = CURR_OPEN then
                TGT_OPEN
              else TGT_CLOSED }
        else g1
      let (st2, n1) :=
        if g2.current_state ≠ st1.gd_currentstate then
          ({ st1 with gd_currentstate := g2.current_state }, [Notif.currentDoor])
        else (st1, ([] : List Notif))
      let (st3, n2) :=
        if g2.target_state ≠ st2.gd_TargetState then
          ({ st2 with gd_TargetState := g2.target_state }, [Notif.targetDoor])
        else (st2, ([] : List Notif))
      { regs := st3, door := g2, ttc := ttc1, notifs := n1 ++ n2 }

/-- The state surrounding protocol-1 light/lock status decoding: the
lightState and lockState globals (setup_comms initializes both to 2)
and the static change-detection registers (initialized to 0xff). -/
structure Sec1LLRegs where
  lightState : Nat
  lockState : Nat
  lastLightState : Nat
  lastLockState : Nat
deriving DecidableEq, Repr

/-- Result of processing one protocol-1 LightLockStatus message. -/
structure Sec1LLResult where
  regs : Sec1LLRegs
  door : GarageDoor
  notifs : List Notif
deriving DecidableEq, Repr

/-- The LightLockStatus case of comms_loop_sec1 (lines 580-640): the
upper nibble must be 0x5; bit 2 is light-on and bit 3 inverted is
lock-secured; each is compared against its static last-state register
and only a change mutates the door model and notifies (with optional
motion triggering per the configured bitmask). -/
def sec1LightLockMsg (st : Sec1LLRegs) (g : GarageDoor) (now : Nat)
    (trigLight trigLock : Bool) (val : Nat) : Sec1LLResult :=
  if val &&& 0xF0 ≠ 0x50 then
    { regs := st, door := g, notifs := [] }
  else
    let lightS := (val >>> 2) &&& 1
    let lockS := if (val >>> 3) &&& 1 = 1 then 0 else 1
    let st1 := { st with lightState := lightS, lockState := lockS }
    let (st2, g2, n1) :=
      if lightS ≠ st1.lastLightState then
        let ga := { g with light := lightS ≠ 0 }
        let (gm, nm) :=
          if trigLight then
            ({ ga with motion_timer := now + MOTION_TIMER_DURATION, motion := true },
              [Notif.motion])
          else (ga, ([] : List Notif))
        ({ st1 with lastLightState := lightS }, gm, Notif.light :: nm)
      else (st1, g, ([] : List Notif))
    let (st3, g4, n2) :=
      if lockS ≠ st2.lastLockState then
        let gb :=
          if lockS ≠ 0 then
            { g2 with current_lock := CURR_LOCKED, target_lock := TGT_LOCKED }
          else
            { g2 with current_lock := CURR_UNLOCKED, target_lock := TGT_UNLOCKED }
        let (gm, nm) :=
          if trigLock then
            ({ gb with motion_timer := now + MOTION_TIMER_DURATION, motion := true },
              [Notif.motion])
          else (gb, ([] : List Notif))
        ({ st2 with lastLockState := lockS }, gm,
          [Notif.targetLock, Notif.currentLock] ++ nm)
      else (st2, g2, ([] : List Notif))
    { regs := st3, door := g4, notifs := n1 ++ n2 }

/-- transmitSec2 from comms.cpp (lines 1090-1126), reduced to its
observable contract: the engine asserts the bus, releases it, and
samples it; if another party is still asserting the bus the send fails
and nothing is encoded or counted; otherwise the frame is written and
the counter incremented when the action is flagged. -/
def transmitSec2 (busAssertedAfterRelease : Bool) (s : RollingState)
    (inc_counter : Bool) : Bool × RollingState :=
  if busAssertedAfterRelease then
    (false, s)
  else
    (true, if inc_counter then transmitInc s else s)

/-! ## Theorems -/

/-- Claim C3 counterexample: from the boot state (zero-initialized
prevDoor, doorState Unknown), a single door-status byte 0x00 (upper
nibble 0x0, low bits 0) is committed to DoorState::Stopped at its first
occurrence, because the zero-initialized debounce register already
matches it; so a single occurrence can commit. -/
theorem C3_counterexample :
    sec1DoorByteRun [0x00] = (0, DoorState.Stopped) ∧
    DoorState.Stopped ≠ DoorState.Unknown := by decide

/-- Claim C3 (amended): for valid protocol-1 door-status bytes, a
decoded value is committed exactly when it equals the stored candidate
register, which holds the low-3-bits of the last valid byte, or 0 at
boot.  Hence for any value other than the boot register value 0, a
single occurrence never commits and two consecutive occurrences commit;
a first-ever byte with low bits 0 commits immediately. -/
theorem C3_sec1_debounce (p : Nat) (d : DoorState) (v : Nat)
    (hv : sec1DoorByteValid v) :
    (v &&& 0x7 ≠ p → sec1DoorByteStep p d v = (v &&& 0x7, d)) ∧
    (v &&& 0x7 = p → sec1DoorByteStep p d v = (p, decodeSec1Door (v &&& 0x7))) ∧
    (v &&& 0x7 ≠ 0 →
      sec1DoorByteRun [v] = (v &&& 0x7, DoorState.Unknown) ∧
      (sec1DoorByteRun [v, v]).2 = decodeSec1Door (v &&& 0x7)) := by
  refine ⟨fun hne => ?_, fun heq => ?_, fun hnz => ?_⟩
  · have hne' : ¬ (p = v &&& 0x7) := fun h => hne h.symm
    simp [sec1DoorByteStep, hv, hne']
  · subst heq
    simp [sec1DoorByteStep, hv]
  · have hnz' : ¬ ((0 : Nat) = v &&& 0x7) := fun h => hnz h.symm
    constructor
    · simp [sec1DoorByteRun, sec1DoorByteStep, hv, hnz']
    · simp [sec1DoorByteRun, sec1DoorByteStep, hv, hnz']

/-- Claim C3 witness: instantiation at byte 0x52 (upper nibble 0x5, low
bits 2) against a non-matching register. -/
theorem C3_sec1_debounce_witness :
    (0x52 &&& 0x7 ≠ 1 →
      sec1DoorByteStep 1 DoorState.Unknown 0x52 = (0x52 &&& 0x7, DoorState.Unknown)) ∧
    (0x52 &&& 0x7 = 1 →
      sec1DoorByteStep 1 DoorState.Unknown 0x52 = (1, decodeSec1Door (0x52 &&& 0x7))) ∧
    (0x52 &&& 0x7 ≠ 0 →
      sec1DoorByteRun [0x52] = (0x52 &&& 0x7, DoorState.Unknown) ∧
      (sec1DoorByteRun [0x52, 0x52]).2 = decodeSec1Door (0x52 &&& 0x7)) :=
  C3_sec1_debounce 1 DoorState.Unknown 0x52 (by decide)

/-- Claim C4: on a failed transmit (for protocol 2, a collision where
the bus remains asserted after release: the send reports failure and
consumes nothing), the popped action is requeued at the front of the
queue and the retry counter increments; the first failure from a fresh
counter yields exactly one requeue-at-front and no drop; only when the
counter has already reached the retry budget MAX_COMMS_RETRY (10) is
the action dropped instead (and the counter reset). -/
theorem C4_retry_requeue (a : PacketAction) (rest : List PacketAction)
    (retry : Nat) (s : RollingState) (inc : Bool) :
    transmitSec2 true s inc = (false, s) ∧
    sec2TxStep (a :: rest) 0 false = (a :: rest, 1, none) ∧
    sec2TxStep (a :: rest) retry false =
      (if retry < MAX_COMMS_RETRY then (a :: rest, retry + 1, none)
       else (rest, 0, some a)) := by
  refine ⟨rfl, by simp [sec2TxStep, MAX_COMMS_RETRY], ?_⟩
  simp only [sec2TxStep, Bool.false_eq_true, if_false]

/-- Claim C5: the code violates its stated intent at exactly three
pulses.  With an obstructed flag set and exactly 3 low pulses counted
in an elapsed 50 ms window, obstruction_timer leaves the flag set and
emits nothing (the source tests low_count > PULSES_LOWER_LIMIT with
PULSES_LOWER_LIMIT = 3, although the comment above it says at least 3
pulses mean awake and clear); with 4 pulses the flag is cleared and the
notification emitted in that same window. -/
theorem C5_failing_input :
    (obstruction_timer
      { initGarageDoor with active := true, obstructed := true }
      { low_count := 3, last_asleep := 0 } 0 100 true false).door.obstructed = true ∧
    (obstruction_timer
      { initGarageDoor with active := true, obstructed := true }
      { low_count := 3, last_asleep := 0 } 0 100 true false).notifs = [] ∧
    (obstruction_timer
      { initGarageDoor with active := true, obstructed := true }
      { low_count := 4, last_asleep := 0 } 0 100 true false).door.obstructed = false ∧
    (obstruction_timer
      { initGarageDoor with active := true, obstructed := true }
      { low_count := 4, last_asleep := 0 } 0 100 true false).notifs =
        [Notif.obstruction] := by decide

/-- Claim C9 counterexample: with a TTC countdown running, open() while
the door is already open is not silently ignored: cancelling the delay
restores the light, which (protocol 2) enqueues a light packet and a
status-refresh packet. -/
theorem C9_counterexample :
    (open_door 2 { initGarageDoor with active := true, current_state := CURR_OPEN }
        5 true).cmds =
      [QueuedCmd.lightCmd true true, QueuedCmd.getStatus] ∧
    (open_door 2 { initGarageDoor with active := true, current_state := CURR_OPEN }
        5 true).cmds ≠ [] := by decide

/-- Claim C9 (amended): provided no TTC countdown is running, open()
while current_state is Open enqueues nothing and attaches no timer; and
close() while current_state is Closed enqueues nothing and attaches no
timer unconditionally, leaving TTCcountdown as it was.  Neither entry
point writes the door model (the embedding returns no mutated door). -/
theorem C9_idempotent_requests (t : Nat) (gO gC : GarageDoor)
    (ttc ttcSeconds : Nat) (w : Bool)
    (hO : gO.current_state = CURR_OPEN) (hC : gC.current_state = CURR_CLOSED) :
    open_door t gO 0 w = { ttc := 0, attach := none, cmds := [] } ∧
    close_door t gC ttc ttcSeconds = { ttc := ttc, attach := none, cmds := [] } := by
  constructor
  · simp [open_door, hO]
  · simp [close_door, hC]

/-- Claim C9 witness: concrete instantiation. -/
theorem C9_idempotent_requests_witness :
    open_door 2 { initGarageDoor with active := true, current_state := CURR_OPEN }
        0 true = { ttc := 0, attach := none, cmds := [] } ∧
    close_door 2 { initGarageDoor with
        active := true, current_state := CURR_CLOSED, target_state := TGT_CLOSED } 7 6 =
      { ttc := 7, attach := none, cmds := [] } :=
  C9_idempotent_requests 2
    { initGarageDoor with active := true, current_state := CURR_OPEN }
    { initGarageDoor with
        active := true, current_state := CURR_CLOSED, target_state := TGT_CLOSED }
    7 6 true rfl rfl

/-- Claim C10: open() while the door is Closing issues a Stop door
command (never an Open), and close() while the door is Opening issues a
Stop door command (never a Close): every door-action packet either call
enqueues carries DoorAction::Stop. -/
theorem C10_stop_instead (t : Nat) (gCl gOp : GarageDoor)
    (ttc ttcSeconds : Nat) (w : Bool)
    (hCl : gCl.current_state = CURR_CLOSING)
    (hOp : gOp.current_state = CURR_OPENING)
    (ht : t = 1 ∨ t = 2) :
    (QueuedCmd.doorAction DoorAction.Stop true ∈ (open_door t gCl ttc w).cmds) ∧
    (∀ a pressed, QueuedCmd.doorAction a pressed ∈ (open_door t gCl ttc w).cmds →
      a = DoorAction.Stop) ∧
    (QueuedCmd.doorAction DoorAction.Stop true ∈
      (close_door t gOp ttc ttcSeconds).cmds) ∧
    (∀ a pressed, QueuedCmd.doorAction a pressed ∈
      (close_door t gOp ttc ttcSeconds).cmds → a = DoorAction.Stop) := by
  rcases ht with ht | ht <;> subst ht <;>
    refine ⟨?_, ?_, ?_, ?_⟩ <;>
    simp [open_door, close_door, doorCommandCmds, sendGetStatusCmds, setLightCmds,
      hCl, hOp] <;>
    split_ifs <;>
    simp_all

/-- Claim C10 witness: concrete instantiation at protocol 2. -/
theorem C10_stop_instead_witness :
    (QueuedCmd.doorAction DoorAction.Stop true ∈
      (open_door 2 { initGarageDoor with
        active := true, current_state := CURR_CLOSING,
        target_state := TGT_CLOSED } 0 false).cmds) ∧
    (∀ a pressed, QueuedCmd.doorAction a pressed ∈
      (open_door 2 { initGarageDoor with
        active := true, current_state := CURR_CLOSING,
        target_state := TGT_CLOSED } 0 false).cmds →
      a = DoorAction.Stop) ∧
    (QueuedCmd.doorAction DoorAction.Stop true ∈
      (close_door 2 { initGarageDoor with
        active := true, current_state := CURR_OPENING } 0 6).cmds) ∧
    (∀ a pressed, QueuedCmd.doorAction a pressed ∈
      (close_door 2 { initGarageDoor with
        active := true, current_state := CURR_OPENING } 0 6).cmds →
      a = DoorAction.Stop) :=
  C10_stop_instead 2
    { initGarageDoor with
        active := true, current_state := CURR_CLOSING, target_state := TGT_CLOSED }
    { initGarageDoor with active := true, current_state := CURR_OPENING }
    0 6 false rfl rfl (Or.inr rfl)

/-- Claim C6: a close request with a configured delay d seconds, no
countdown running and the door in a closeable state seeds TTCcountdown
with d*2, remembers the pre-delay light state, installs the close end
action and attaches the 500 ms tick timer; every non-terminal tick
(countdown still positive after decrement) requests the light toggled
and does not fire the end action; the terminal tick fires the end
action, detaches, and requests no light change; from a seed of 12
(d = 6), 11 ticks fire nothing and the 12th tick fires the end action,
so exactly 12 ticks elapse before the close command is issued. -/
theorem C6_ttc_countdown (g : GarageDoor) (d : Nat)
    (hc : g.current_state ≠ CURR_CLOSED) (ho : g.current_state ≠ CURR_OPENING)
    (hd : d ≠ 0) :
    close_door 2 g 0 d =
      { ttc := d * 2
        attach := some { countdown := d * 2, period_ms := 500,
                         wasLightOn := g.light, action := TTCAction.closeDoor }
        cmds := [] } ∧
    (∀ c light, 2 ≤ c → c ≤ 255 →
      TTCdelayLoop c light =
        { countdown := c - 1, lightCmd := some (!light), fired := false,
          detached := false }) ∧
    (∀ light, TTCdelayLoop 1 light =
      { countdown := 0, lightCmd := none, fired := true, detached := true }) ∧
    (∀ light, (ttcTicks 12 light 11).2.2 = 0 ∧ (ttcTicks 12 light 12).2.2 = 1) := by
  refine ⟨?_, ?_, ?_, ?_⟩
  · simp [close_door, hc, ho, hd]
  · intro c light h1 h2
    have hm : (c + 255) % 256 = c - 1 := by omega
    have hp : 0 < c - 1 := by omega
    simp [TTCdelayLoop, hm, hp]
  · intro light
    simp [TTCdelayLoop]
  · decide

/-- Claim C6 witness: instantiation at d = 6 from an open door. -/
theorem C6_ttc_countdown_witness :
    ({ initGarageDoor with active := true } : GarageDoor).current_state ≠
        CURR_CLOSED ∧
    ({ initGarageDoor with active := true } : GarageDoor).current_state ≠
        CURR_OPENING ∧
    (close_door 2 { initGarageDoor with active := true } 0 6 =
      { ttc := 12
        attach := some { countdown := 12, period_ms := 500,
                         wasLightOn := false, action := TTCAction.closeDoor }
        cmds := [] } ∧
    (∀ c light, 2 ≤ c → c ≤ 255 →
      TTCdelayLoop c light =
        { countdown := c - 1, lightCmd := some (!light), fired := false,
          detached := false }) ∧
    (∀ light, TTCdelayLoop 1 light =
      { countdown := 0, lightCmd := none, fired := true, detached := true }) ∧
    (∀ light, (ttcTicks 12 light 11).2.2 = 0 ∧ (ttcTicks 12 light 12).2.2 = 1)) :=
  ⟨by decide, by decide,
    C6_ttc_countdown { initGarageDoor with active := true } 6
      (by decide) (by decide) (by decide)⟩

/-- manual_recovery from a zero push count arms the 3 s window. -/
theorem manual_recovery_first (light : Bool) (tm t : Nat) :
    manual_recovery ⟨0, tm⟩ light t =
      { fr := ⟨1, t + 3000⟩, triggered := false, attach := none } := by
  simp [manual_recovery]

/-- manual_recovery within the window below the threshold just counts. -/
theorem manual_recovery_mid (light : Bool) (c tm t : Nat) (hc0 : c ≠ 0)
    (hc : c < 4) (ht : ¬ tm < t) :
    manual_recovery ⟨c, tm⟩ light t =
      { fr := ⟨c + 1, tm⟩, triggered := false, attach := none } := by
  have h1 : (c + 1) % 256 = c + 1 := by omega
  have h2 : ¬ (c + 1 ≥ 5) := by omega
  simp [manual_recovery, hc0, h1, h2, ht]

/-- manual_recovery reaching 5 within the window triggers recovery and
starts the TTC controller with the fixed recovery delay. -/
theorem manual_recovery_fifth (light : Bool) (tm t : Nat) (ht : ¬ tm < t) :
    manual_recovery ⟨4, tm⟩ light t =
      { fr := ⟨5, tm⟩, triggered := true
        attach := some { countdown := 6, period_ms := 500, wasLightOn := light,
                         action := TTCAction.syncAndRestart } } := by
  simp [manual_recovery, ht, force_recover_delay]

/-- manual_recovery after the window has elapsed resets the counter. -/
theorem manual_recovery_late (light : Bool) (c tm t : Nat) (hc0 : c ≠ 0)
    (ht : tm < t) :
    manual_recovery ⟨c, tm⟩ light t =
      { fr := ⟨0, tm⟩, triggered := false, attach := none } := by
  simp [manual_recovery, hc0, ht]

/-- Claim C8: each qualifying press increments push_count and the first
press of a fresh sequence arms a 3 s timeout; five presses with the
fifth at most 3 s after the first trigger the recovery request exactly
once (at the fifth press, not before); if instead the fifth press
arrives after the timeout, no trigger occurs and the counter resets to
zero — so 4 presses, a gap past 3 s, then 1 more press never triggers. -/
theorem C8_manual_recovery (light : Bool) (t1 t2 t3 t4 t5 u5 : Nat)
    (_h12 : t1 ≤ t2) (h23 : t2 ≤ t3) (h34 : t3 ≤ t4) (h45 : t4 ≤ t5)
    (hin : t5 ≤ t1 + 3000) (hout : t1 + 3000 < u5) :
    (manual_recovery ⟨0, 0⟩ light t1).fr = ⟨1, t1 + 3000⟩ ∧
    (manualRecoveryRun ⟨0, 0⟩ light [t1, t2, t3, t4]).1.push_count = 4 ∧
    (manualRecoveryRun ⟨0, 0⟩ light [t1, t2, t3, t4]).2 = 0 ∧
    (manualRecoveryRun ⟨0, 0⟩ light [t1, t2, t3, t4, t5]).2 = 1 ∧
    (manualRecoveryRun ⟨0, 0⟩ light [t1, t2, t3, t4, u5]).2 = 0 ∧
    (manualRecoveryRun ⟨0, 0⟩ light [t1, t2, t3, t4, u5]).1.push_count = 0 := by
  have e1 := manual_recovery_first light 0 t1
  have e2 := manual_recovery_mid light 1 (t1 + 3000) t2 (by omega) (by omega)
    (by omega)
  have e3 := manual_recovery_mid light 2 (t1 + 3000) t3 (by omega) (by omega)
    (by omega)
  have e4 := manual_recovery_mid light 3 (t1 + 3000) t4 (by omega) (by omega)
    (by omega)
  have e5 := manual_recovery_fifth light (t1 + 3000) t5 (by omega)
  have e6 := manual_recovery_late light 4 (t1 + 3000) u5 (by omega) (by omega)
  refine ⟨by simp [e1], ?_, ?_, ?_, ?_, ?_⟩ <;>
    simp [manualRecoveryRun, e1, e2, e3, e4, e5, e6]

/-- Claim C8 witness: presses at 1000, 1200, 1400, 1600, then either
2000 (within the window: triggers) or 4500 (past it: does not). -/
theorem C8_manual_recovery_witness :
    (manual_recovery ⟨0, 0⟩ false 1000).fr = ⟨1, 1000 + 3000⟩ ∧
    (manualRecoveryRun ⟨0, 0⟩ false [1000, 1200, 1400, 1600]).1.push_count = 4 ∧
    (manualRecoveryRun ⟨0, 0⟩ false [1000, 1200, 1400, 1600]).2 = 0 ∧
    (manualRecoveryRun ⟨0, 0⟩ false [1000, 1200, 1400, 1600, 2000]).2 = 1 ∧
    (manualRecoveryRun ⟨0, 0⟩ false [1000, 1200, 1400, 1600, 4500]).2 = 0 ∧
    (manualRecoveryRun ⟨0, 0⟩ false [1000, 1200, 1400, 1600, 4500]).1.push_count
      = 0 :=
  C8_manual_recovery false 1000 1200 1400 1600 2000 4500 (by decide) (by decide)
    (by decide) (by decide) (by decide) (by decide)

/-- A masked increment raises the counter by at most one. -/
theorem transmitInc_rolling_le (s : RollingState) :
    (transmitInc s).rolling ≤ s.rolling + 1 :=
  Nat.mod_le _ _

/-- A masked increment leaves the persisted value alone. -/
theorem transmitInc_saved (s : RollingState) :
    (transmitInc s).saved = s.saved := rfl

/-- Every service-loop pass re-establishes the write-ahead invariant:
on exit the in-memory counter is within batch-minus-one of the
persisted value, because the end-of-loop flush fires at the batch
threshold. -/
theorem sec2CounterLoop_J (s : RollingState) (b : Bool) :
    (sec2CounterLoop s b).rolling ≤ (sec2CounterLoop s b).saved + 9 := by
  unfold sec2CounterLoop
  cases b <;> simp [MAX_CODES_WITHOUT_FLASH_WRITE] <;>
    split_ifs with h <;> simp [save_rolling_code, transmitInc] at * <;> omega

/-- The write-ahead invariant is preserved by any sequence of
service-loop passes. -/
theorem foldl_sec2CounterLoop_J (l : List Bool) (s : RollingState)
    (h : s.rolling ≤ s.saved + 9) :
    (l.foldl sec2CounterLoop s).rolling ≤
      (l.foldl sec2CounterLoop s).saved + 9 := by
  induction l generalizing s with
  | nil => simpa using h
  | cons b l ih =>
    simpa using ih (sec2CounterLoop s b) (sec2CounterLoop_J s b)

/-- After setup_comms and the two sync transmissions the counter is at
most two past the persisted value. -/
theorem syncSetup_J (p : Nat) (ok1 ok2 : Bool) :
    (syncCounter (setupRolling p) ok1 ok2).rolling ≤
      (syncCounter (setupRolling p) ok1 ok2).saved + 9 := by
  have h1 := transmitInc_rolling_le (setupRolling p)
  have h2 := transmitInc_rolling_le (transmitInc (setupRolling p))
  cases ok1 <;> cases ok2 <;>
    simp [syncCounter, setupRolling, save_rolling_code, transmitInc_saved] at * <;>
    omega

/-- Claim C2 counterexample: after a restart whose last persisted value
is 0 (the fresh-installation default), the bump is skipped and the new
in-memory counter is 0, not strictly greater than the last persisted
value; a full boot whose two sync transmissions both hit bus collisions
also leaves it at 0. -/
theorem C2_counterexample :
    (setupRolling 0).rolling = 0 ∧ ¬ (0 < (setupRolling 0).rolling) ∧
    (rollingRun 0 false false []).rolling = 0 := by decide

/-- Claim C2 (amended): along any post-boot execution (restart from
persisted value p, the two sync transmissions, any sequence of service
loops) the persisted counter is at least the in-memory counter minus
the batch size of 10 — including the opener-visible value right after
an in-loop increment, before the end-of-loop flush; and after a restart
whose last persisted value is nonzero, the new in-memory counter is
strictly greater than that persisted value. -/
theorem C2_rolling_invariant (p : Nat) (ok1 ok2 : Bool) (loops : List Bool)
    (didInc : Bool) (hp : p ≠ 0) :
    (rollingRun p ok1 ok2 loops).rolling ≤
      (rollingRun p ok1 ok2 loops).saved + MAX_CODES_WITHOUT_FLASH_WRITE ∧
    (if didInc then transmitInc (rollingRun p ok1 ok2 loops)
      else rollingRun p ok1 ok2 loops).rolling ≤
      (rollingRun p ok1 ok2 loops).saved + MAX_CODES_WITHOUT_FLASH_WRITE ∧
    p < (setupRolling p).rolling := by
  have hJ : (rollingRun p ok1 ok2 loops).rolling ≤
      (rollingRun p ok1 ok2 loops).saved + 9 :=
    foldl_sec2CounterLoop_J loops _ (syncSetup_J p ok1 ok2)
  have hM : MAX_CODES_WITHOUT_FLASH_WRITE = 10 := rfl
  refine ⟨by omega, ?_, ?_⟩
  · cases didInc
    · simpa [hM] using by omega
    · have := transmitInc_rolling_le (rollingRun p ok1 ok2 loops)
      simpa [hM] using by omega
  · simp [setupRolling, save_rolling_code, hp, hM]

/-- Claim C2 witness: restart from persisted value 37, both sync sends
succeeding, three service loops (two of which transmit), one further
in-loop increment pending. -/
theorem C2_rolling_invariant_witness :
    (rollingRun 37 true true [true, false, true]).rolling ≤
      (rollingRun 37 true true [true, false, true]).saved +
        MAX_CODES_WITHOUT_FLASH_WRITE ∧
    (if true then transmitInc (rollingRun 37 true true [true, false, true])
      else rollingRun 37 true true [true, false, true]).rolling ≤
      (rollingRun 37 true true [true, false, true]).saved +
        MAX_CODES_WITHOUT_FLASH_WRITE ∧
    37 < (setupRolling 37).rolling :=
  C2_rolling_invariant 37 true true [true, false, true] true (by decide)

/-- Processing any protocol-2 status frame leaves the door model
active: the frame either found it active or activated it. -/
theorem sec2Status_active (g : GarageDoor) (ttc : Nat) (d : DoorState)
    (lp kp : Bool) : (sec2Status g ttc d lp kp).door.active = true := by
  simp only [sec2Status]
  split_ifs <;> rfl

/-- A protocol-1 door-status message that emits any notification has
committed a door value, and every commit path activates the model
before the notification comparisons run. -/
theorem sec1DoorStatusMsg_active_of_notifs (st : Sec1DoorRegs)
    (g : GarageDoor) (ttc : Nat) (val : Nat)
    (h : (sec1DoorStatusMsg st g ttc val).notifs ≠ []) :
    (sec1DoorStatusMsg st g ttc val).door.active = true := by
  by_cases hv : sec1DoorByteValid val
  · by_cases hp : st.prevDoor ≠ val &&& 0x7
    · simp [sec1DoorStatusMsg, hv, hp] at h
    · simp only [sec1DoorStatusMsg, hv, hp, not_true_eq_false, if_false,
        not_false_eq_true, if_true, ite_not]
      cases hds : decodeSec1Door (val &&& 0x7) <;>
        simp [hds] <;> split_ifs <;> simp_all
  · simp [sec1DoorStatusMsg, hv] at h

/-- obstruction_timer never emits door-state notifications. -/
theorem obstruction_timer_no_door_notifs (g : GarageDoor)
    (s : ObstructionSensor) (lm cm : Nat) (lh tr : Bool) :
    Notif.currentDoor ∉ (obstruction_timer g s lm cm lh tr).notifs ∧
    Notif.targetDoor ∉ (obstruction_timer g s lm cm lh tr).notifs := by
  unfold obstruction_timer
  split_ifs <;> simp

/-- A protocol-1 light/lock status message never emits door-state
notifications. -/
theorem sec1LightLockMsg_no_door_notifs (st : Sec1LLRegs) (g : GarageDoor)
    (now : Nat) (tl tk : Bool) (val : Nat) :
    Notif.currentDoor ∉ (sec1LightLockMsg st g now tl tk val).notifs ∧
    Notif.targetDoor ∉ (sec1LightLockMsg st g now tl tk val).notifs := by
  unfold sec1LightLockMsg
  split_ifs <;> simp <;> split_ifs <;> simp

/-- Claim C7 counterexample: while the door model has never been
activated (no valid status yet), obstruction_timer still emits an
obstruction notification for a window with zero pulses, a high line and
a stale last_asleep; so notifications other than the door pair are not
gated on active. -/
theorem C7_counterexample :
    initGarageDoor.active = false ∧
    (obstruction_timer initGarageDoor { low_count := 0, last_asleep := 0 }
      0 1000 true false).door.active = false ∧
    (obstruction_timer initGarageDoor { low_count := 0, last_asleep := 0 }
      0 1000 true false).notifs = [Notif.obstruction] := by decide

/-- Claim C7 (amended): until the door model is active no current-door
or target-door notification is emitted — any status processing that
emits one has already set active in the same step — but light, lock,
motion and obstruction notifications are not gated on active:
obstruction_timer and the protocol-1 light/lock handler emit no door
notifications yet run regardless of active. -/
theorem C7_door_notifs_gated :
    (∀ (g : GarageDoor) (ttc : Nat) (d : DoorState) (lp kp : Bool),
      (Notif.currentDoor ∈ (sec2Status g ttc d lp kp).notifs ∨
        Notif.targetDoor ∈ (sec2Status g ttc d lp kp).notifs) →
      (sec2Status g ttc d lp kp).door.active = true) ∧
    (∀ (st : Sec1DoorRegs) (g : GarageDoor) (ttc val : Nat),
      (Notif.currentDoor ∈ (sec1DoorStatusMsg st g ttc val).notifs ∨
        Notif.targetDoor ∈ (sec1DoorStatusMsg st g ttc val).notifs) →
      (sec1DoorStatusMsg st g ttc val).door.active = true) ∧
    (∀ (g : GarageDoor) (s : ObstructionSensor) (lm cm : Nat) (lh tr : Bool),
      Notif.currentDoor ∉ (obstruction_timer g s lm cm lh tr).notifs ∧
      Notif.targetDoor ∉ (obstruction_timer g s lm cm lh tr).notifs) ∧
    (∀ (st : Sec1LLRegs) (g : GarageDoor) (now : Nat) (tl tk : Bool) (val : Nat),
      Notif.currentDoor ∉ (sec1LightLockMsg st g now tl tk val).notifs ∧
      Notif.targetDoor ∉ (sec1LightLockMsg st g now tl tk val).notifs) := by
  refine ⟨fun g ttc d lp kp _ => sec2Status_active g ttc d lp kp,
    fun st g ttc val h => ?_,
    fun g s lm cm lh tr => obstruction_timer_no_door_notifs g s lm cm lh tr,
    fun st g now tl tk val => sec1LightLockMsg_no_door_notifs st g now tl tk val⟩
  exact sec1DoorStatusMsg_active_of_notifs st g ttc val
    (by rcases h with h | h <;> exact List.ne_nil_of_mem h)

/-- Claim C7 witness: the gating facts applied at a concrete first
status frame (protocol 2, door Opening, from the boot state), which
does emit a door notification and does end active. -/
theorem C7_door_notifs_gated_witness :
    (Notif.currentDoor ∈
        (sec2Status initGarageDoor 0 DoorState.Opening false false).notifs ∨
      Notif.targetDoor ∈
        (sec2Status initGarageDoor 0 DoorState.Opening false false).notifs) ∧
    (sec2Status initGarageDoor 0 DoorState.Opening false false).door.active
      = true :=
  ⟨by decide,
    C7_door_notifs_gated.1 initGarageDoor 0 DoorState.Opening false false
      (by decide)⟩

/-- Claim C1 counterexample: two consecutive protocol-2 Stopped status
frames from the boot state.  The second frame changes only the target
(back-filled TGT_CLOSED becomes TGT_OPEN) yet the current-door
notification also fires although current_state is unchanged, because
the source fires both notifications whenever either value changed. -/
theorem C1_counterexample :
    Notif.currentDoor ∈
      (sec2Status (sec2Status initGarageDoor 0 DoorState.Stopped false false).door
        0 DoorState.Stopped false false).notifs ∧
    (sec2Status (sec2Status initGarageDoor 0 DoorState.Stopped false false).door
        0 DoorState.Stopped false false).door.current_state =
      (sec2Status initGarageDoor 0 DoorState.Stopped false false).door.current_state
    := by decide

/-- Claim C1 (amended): for every protocol-2 status frame, the
current-door and the target-door notification each fire at most once
per frame, and they fire together exactly when at least one of
current_state, target_state changed from its prior value — so either
may fire on a frame in which its own value did not change, whenever the
other one did. -/
theorem C1_sec2_door_notifications (g : GarageDoor) (ttc : Nat)
    (d : DoorState) (lp kp : Bool) :
    ((sec2Status g ttc d lp kp).notifs.count Notif.currentDoor ≤ 1) ∧
    ((sec2Status g ttc d lp kp).notifs.count Notif.targetDoor ≤ 1) ∧
    (Notif.currentDoor ∈ (sec2Status g ttc d lp kp).notifs ↔
      ((sec2Status g ttc d lp kp).door.current_state ≠ g.current_state ∨
        (sec2Status g ttc d lp kp).door.target_state ≠ g.target_state)) ∧
    (Notif.targetDoor ∈ (sec2Status g ttc d lp kp).notifs ↔
      ((sec2Status g ttc d lp kp).door.current_state ≠ g.current_state ∨
        (sec2Status g ttc d lp kp).door.target_state ≠ g.target_state)) := by
  simp only [sec2Status]
  split_ifs <;> simp_all [List.count_cons, List.count_append] <;> tauto

end Ratgdo
